import Mathlib

/- Verification of the i2c-sensors driver core (BMP388 / BME280):
   a shallow embedding of the register transport, the FIFO stream decoder,
   the calibration decoder and the compensation formulas, translated from
   the Rust sources in src/src/bmp388/bmp388_core.rs, src/src/bme280.rs
   and src/examples/bmp388-example.rs. -/

/-- One i2c transport operation as issued by the driver (the primitives of
src/src/i2cio.rs and the direct i2c crate calls in bmp388_core.rs). -/
inductive I2cOp where
  | setSlave (addr : Nat)
  | readByte (reg : Nat)
  | readWord (reg : Nat)
  | readBlock (reg : Nat) (len : Nat)
  | writeByte (reg : Nat) (val : Nat)
  | sleepMs (ms : Nat)
  deriving DecidableEq, Repr

/-- A transport response to one operation.  A `block` response carries the
bytes actually delivered, which may be fewer than requested (short read),
mirroring the byte count returned by i2c_read_block_data. -/
inductive I2cResp where
  | ack
  | byte (b : Nat)
  | word (w : Nat)
  | block (bs : List Nat)
  | err
  deriving DecidableEq, Repr

/-- The distinct error constructions of the driver (all are std::io::Error
values in the source; we keep them apart by their construction site). -/
inductive DriverError where
  | transport
  | unexpectedChipId (found : Nat)
  | fifoConfig
  | unknownControlHeader (header : Nat)
  | unknownHeader (header : Nat)
  deriving DecidableEq, Repr

/-- Bus state: the remaining scripted device responses and the trace of
operations issued so far by the driver. -/
structure BusState where
  resps : List I2cResp
  trace : List I2cOp
  deriving DecidableEq, Repr

def initBus (rs : List I2cResp) : BusState :=
  { resps := rs, trace := [] }

/-- Issue one operation: record it in the trace and consume the next scripted
response (an exhausted script behaves like a transport failure). -/
def issue (op : I2cOp) (s : BusState) : I2cResp × BusState :=
  match s.resps with
  | [] => (I2cResp.err, { resps := [], trace := s.trace ++ [op] })
  | r :: rs => (r, { resps := rs, trace := s.trace ++ [op] })

/-- i2cio::set_slave. -/
def set_slave (addr : Nat) (s : BusState) : Except DriverError Unit × BusState :=
  match issue (I2cOp.setSlave addr) s with
  | (I2cResp.ack, s1) => (Except.ok (), s1)
  | (_, s1) => (Except.error DriverError.transport, s1)

/-- i2cio::read_byte (smbus_read_byte_data); the result is a u8. -/
def read_byte (reg : Nat) (s : BusState) : Except DriverError Nat × BusState :=
  match issue (I2cOp.readByte reg) s with
  | (I2cResp.byte b, s1) => (Except.ok (b % 256), s1)
  | (_, s1) => (Except.error DriverError.transport, s1)

/-- i2cio::read_word (smbus_read_word_data); the result is a u16. -/
def read_word (reg : Nat) (s : BusState) : Except DriverError Nat × BusState :=
  match issue (I2cOp.readWord reg) s with
  | (I2cResp.word w, s1) => (Except.ok (w % 65536), s1)
  | (_, s1) => (Except.error DriverError.transport, s1)

/-- i2cio::write_byte (smbus_write_byte_data). -/
def write_byte (reg val : Nat) (s : BusState) : Except DriverError Unit × BusState :=
  match issue (I2cOp.writeByte reg val) s with
  | (I2cResp.ack, s1) => (Except.ok (), s1)
  | (_, s1) => (Except.error DriverError.transport, s1)

/-- i2c_read_block_data into a zero-initialised buffer of length `len`:
returns the byte count actually delivered and the buffer contents (delivered
bytes followed by the untouched zero fill). -/
def read_block (reg len : Nat) (s : BusState) : Except DriverError (Nat × List Nat) × BusState :=
  match issue (I2cOp.readBlock reg len) s with
  | (I2cResp.block bs, s1) =>
    let delivered := (bs.take len).map (fun b => b % 256)
    (Except.ok (delivered.length, delivered ++ List.replicate (len - delivered.length) 0), s1)
  | (_, s1) => (Except.error DriverError.transport, s1)

/-- thread::sleep: recorded in the trace, consumes no response. -/
def sleep_ms (ms : Nat) (s : BusState) : BusState :=
  { resps := s.resps, trace := s.trace ++ [I2cOp.sleepMs ms] }

/-- The readBlock operations of a trace, as (register, requested length). -/
def block_reads : List I2cOp → List (Nat × Nat)
  | [] => []
  | I2cOp.readBlock r l :: ops => (r, l) :: block_reads ops
  | _ :: ops => block_reads ops

/-- The writeByte operations of a trace. -/
def write_ops : List I2cOp → List I2cOp
  | [] => []
  | I2cOp.writeByte r v :: ops => I2cOp.writeByte r v :: write_ops ops
  | _ :: ops => write_ops ops

/- Register and bit constants of bmp388_core.rs. -/

def BMP388_CHIP_ID : Nat := 0x50
def BMP388_REG_CHIP_ID : Nat := 0x00
def BMP388_REG_PRESSURE_DATA : Nat := 0x04
def BMP388_REG_TEMPERATURE_DATA : Nat := 0x07
def BMP388_REG_FIFO_LENGTH : Nat := 0x12
def BMP388_REG_FIFO_DATA : Nat := 0x14
def BMP388_REG_POWER_CONTROL : Nat := 0x1b
def BMP388_REG_OVERSAMPLING_RATE : Nat := 0x1c
def BMP388_REG_OUTPUT_DATA_RATE : Nat := 0x1d
def BMP388_REG_CONFIG : Nat := 0x1f
def BMP388_REG_TRIMMING_COEFFICIENTS : Nat := 0x31
def BMP388_REG_CMD : Nat := 0x7e
def BMP388_CMD_SOFT_RESET : Nat := 0xb6
def BMP388_STARTUP_DELAY_MS : Nat := 2
def BMP388_LEN_TRIMMING_COEFFICIENTS : Nat := 21
def BMP388_LEN_PRESSURE_DATA : Nat := 3
def BMP388_LEN_TEMPERATURE_DATA : Nat := 3

def BMP280_FIFO_SENSOR_FRAME_BIT : Nat := 0x80
def BMP280_FIFO_CONTROL_FRAME_BIT : Nat := 0x40
def BMP280_FIFO_CONTROL_FRAME_CONFIG_ERROR_BIT : Nat := 0x04
def BMP280_FIFO_CONTROL_FRAME_CONFIG_CHANGE_BIT : Nat := 0x08
def BMP280_FIFO_SENSOR_FRAME_SENSOR_TIME_BIT : Nat := 0x20
def BMP280_FIFO_SENSOR_FRAME_TEMPERATURE_BIT : Nat := 0x10
def BMP280_FIFO_SENSOR_FRAME_PRESSURE_BIT : Nat := 0x04

def BMP280_FIFO_FRAMLE_LENGTH_SENSOR_TIME : Nat := 4
def BMP280_FIFO_FRAMLE_LENGTH_PRESSURE : Nat := 4
def BMP280_FIFO_FRAMLE_LENGTH_TEMPERATURE : Nat := 4
def BMP280_FIFO_FRAMLE_LENGTH_PRESSURE_TEMPERATURE : Nat := 7

/-- bmp388_enums::BMP388FifoWithSensorTime. -/
inductive BMP388FifoWithSensorTime where
  | Disabled
  | Enabled
  deriving DecidableEq, Repr

/-- bmp388_core::FifoData. -/
structure FifoData where
  pressure_raw : Option Nat
  temperature_raw : Option Nat
  sensor_time : Option Nat
  config_change : Bool
  deriving DecidableEq, Repr

/-- The three-byte MSB/LSB/XLSB reassembly used throughout bmp388_core.rs:
msb shifted by 16, lsb by 8, the xlsb byte taken whole. -/
def assemble_msb_lsb_xlsb (msb lsb xlsb : Nat) : Nat :=
  msb <<< 16 ||| lsb <<< 8 ||| xlsb

/-- BMP388::get_fifo_data (one byte read from the FIFO data register). -/
def get_fifo_data (s : BusState) : Except DriverError Nat × BusState :=
  read_byte BMP388_REG_FIFO_DATA s

/-- BMP388::get_fifo_length (word read from the FIFO length register). -/
def get_fifo_length (s : BusState) : Except DriverError Nat × BusState :=
  read_word BMP388_REG_FIFO_LENGTH s

/-- BMP388::read_fifo_frame_pressure: a 4-byte block read; the pressure is
present only when all 4 bytes arrived and the in-block header has the
pressure flag set. -/
def read_fifo_frame_pressure (s : BusState) : Except DriverError (Option Nat) × BusState :=
  match read_block BMP388_REG_FIFO_DATA BMP280_FIFO_FRAMLE_LENGTH_PRESSURE s with
  | (Except.error e, s1) => (Except.error e, s1)
  | (Except.ok (bytes_read, buf), s1) =>
    let pressure_raw :=
      if bytes_read = BMP280_FIFO_FRAMLE_LENGTH_PRESSURE then
        if buf.getD 0 0 &&& BMP280_FIFO_SENSOR_FRAME_PRESSURE_BIT > 0 then
          some (assemble_msb_lsb_xlsb (buf.getD 3 0) (buf.getD 2 0) (buf.getD 1 0))
        else none
      else none
    (Except.ok pressure_raw, s1)

/-- BMP388::read_fifo_frame_temperature: a 4-byte block read. -/
def read_fifo_frame_temperature (s : BusState) : Except DriverError (Option Nat) × BusState :=
  match read_block BMP388_REG_FIFO_DATA BMP280_FIFO_FRAMLE_LENGTH_TEMPERATURE s with
  | (Except.error e, s1) => (Except.error e, s1)
  | (Except.ok (bytes_read, buf), s1) =>
    let temperature_raw :=
      if bytes_read = BMP280_FIFO_FRAMLE_LENGTH_TEMPERATURE then
        if buf.getD 0 0 &&& BMP280_FIFO_SENSOR_FRAME_TEMPERATURE_BIT > 0 then
          some (assemble_msb_lsb_xlsb (buf.getD 3 0) (buf.getD 2 0) (buf.getD 1 0))
        else none
      else none
    (Except.ok temperature_raw, s1)

/-- BMP388::read_fifo_frame_pressure_with_time: an 8-byte block read; the
trailing sensor-time word has its own header byte at offset 4. -/
def read_fifo_frame_pressure_with_time (s : BusState) :
    Except DriverError (Option Nat × Option Nat) × BusState :=
  match read_block BMP388_REG_FIFO_DATA
      (BMP280_FIFO_FRAMLE_LENGTH_PRESSURE + BMP280_FIFO_FRAMLE_LENGTH_SENSOR_TIME) s with
  | (Except.error e, s1) => (Except.error e, s1)
  | (Except.ok (bytes_read, buf), s1) =>
    let pressure_raw :=
      if bytes_read ≥ BMP280_FIFO_FRAMLE_LENGTH_PRESSURE then
        if buf.getD 0 0 &&& BMP280_FIFO_SENSOR_FRAME_PRESSURE_BIT > 0 then
          some (assemble_msb_lsb_xlsb (buf.getD 3 0) (buf.getD 2 0) (buf.getD 1 0))
        else none
      else none
    let sensor_time :=
      if bytes_read = BMP280_FIFO_FRAMLE_LENGTH_PRESSURE + BMP280_FIFO_FRAMLE_LENGTH_SENSOR_TIME then
        if buf.getD 4 0 &&& BMP280_FIFO_SENSOR_FRAME_SENSOR_TIME_BIT > 0 then
          some (assemble_msb_lsb_xlsb (buf.getD 7 0) (buf.getD 6 0) (buf.getD 5 0))
        else none
      else none
    (Except.ok (pressure_raw, sensor_time), s1)

/-- BMP388::read_fifo_frame_temperature_with_time: an 8-byte block read. -/
def read_fifo_frame_temperature_with_time (s : BusState) :
    Except DriverError (Option Nat × Option Nat) × BusState :=
  match read_block BMP388_REG_FIFO_DATA
      (BMP280_FIFO_FRAMLE_LENGTH_TEMPERATURE + BMP280_FIFO_FRAMLE_LENGTH_SENSOR_TIME) s with
  | (Except.error e, s1) => (Except.error e, s1)
  | (Except.ok (bytes_read, buf), s1) =>
    let temperature_raw :=
      if bytes_read ≥ BMP280_FIFO_FRAMLE_LENGTH_TEMPERATURE then
        if buf.getD 0 0 &&& BMP280_FIFO_SENSOR_FRAME_TEMPERATURE_BIT > 0 then
          some (assemble_msb_lsb_xlsb (buf.getD 3 0) (buf.getD 2 0) (buf.getD 1 0))
        else none
      else none
    let sensor_time :=
      if bytes_read = BMP280_FIFO_FRAMLE_LENGTH_TEMPERATURE + BMP280_FIFO_FRAMLE_LENGTH_SENSOR_TIME then
        if buf.getD 4 0 &&& BMP280_FIFO_SENSOR_FRAME_SENSOR_TIME_BIT > 0 then
          some (assemble_msb_lsb_xlsb (buf.getD 7 0) (buf.getD 6 0) (buf.getD 5 0))
        else none
      else none
    (Except.ok (temperature_raw, sensor_time), s1)

/-- BMP388::read_fifo_frame_pressure_temperature: a 7-byte block read,
temperature bytes at offsets 1..3, pressure bytes at offsets 4..6. -/
def read_fifo_frame_pressure_temperature (s : BusState) :
    Except DriverError (Option Nat × Option Nat) × BusState :=
  match read_block BMP388_REG_FIFO_DATA BMP280_FIFO_FRAMLE_LENGTH_PRESSURE_TEMPERATURE s with
  | (Except.error e, s1) => (Except.error e, s1)
  | (Except.ok (bytes_read, buf), s1) =>
    let temperature_raw :=
      if bytes_read ≥ BMP280_FIFO_FRAMLE_LENGTH_TEMPERATURE then
        if buf.getD 0 0 &&& BMP280_FIFO_SENSOR_FRAME_TEMPERATURE_BIT > 0 then
          some (assemble_msb_lsb_xlsb (buf.getD 3 0) (buf.getD 2 0) (buf.getD 1 0))
        else none
      else none
    let pressure_raw :=
      if bytes_read = BMP280_FIFO_FRAMLE_LENGTH_PRESSURE_TEMPERATURE then
        if buf.getD 0 0 &&& BMP280_FIFO_SENSOR_FRAME_PRESSURE_BIT > 0 then
          some (assemble_msb_lsb_xlsb (buf.getD 6 0) (buf.getD 5 0) (buf.getD 4 0))
        else none
      else none
    (Except.ok (pressure_raw, temperature_raw), s1)

/-- BMP388::read_fifo_frame_pressure_temperature_with_time: an 11-byte block
read; sensor-time header at offset 7, time bytes at offsets 8..10. -/
def read_fifo_frame_pressure_temperature_with_time (s : BusState) :
    Except DriverError (Option Nat × Option Nat × Option Nat) × BusState :=
  match read_block BMP388_REG_FIFO_DATA
      (BMP280_FIFO_FRAMLE_LENGTH_PRESSURE_TEMPERATURE + BMP280_FIFO_FRAMLE_LENGTH_SENSOR_TIME) s with
  | (Except.error e, s1) => (Except.error e, s1)
  | (Except.ok (bytes_read, buf), s1) =>
    let temperature_raw :=
      if bytes_read ≥ BMP280_FIFO_FRAMLE_LENGTH_TEMPERATURE then
        if buf.getD 0 0 &&& BMP280_FIFO_SENSOR_FRAME_TEMPERATURE_BIT > 0 then
          some (assemble_msb_lsb_xlsb (buf.getD 3 0) (buf.getD 2 0) (buf.getD 1 0))
        else none
      else none
    let pressure_raw :=
      if bytes_read ≥ BMP280_FIFO_FRAMLE_LENGTH_PRESSURE_TEMPERATURE then
        if buf.getD 0 0 &&& BMP280_FIFO_SENSOR_FRAME_PRESSURE_BIT > 0 then
          some (assemble_msb_lsb_xlsb (buf.getD 6 0) (buf.getD 5 0) (buf.getD 4 0))
        else none
      else none
    let sensor_time :=
      if bytes_read = BMP280_FIFO_FRAMLE_LENGTH_PRESSURE_TEMPERATURE + BMP280_FIFO_FRAMLE_LENGTH_SENSOR_TIME then
        if buf.getD 7 0 &&& BMP280_FIFO_SENSOR_FRAME_SENSOR_TIME_BIT > 0 then
          some (assemble_msb_lsb_xlsb (buf.getD 10 0) (buf.getD 9 0) (buf.getD 8 0))
        else none
      else none
    (Except.ok (pressure_raw, temperature_raw, sensor_time), s1)

/-- The sensor-frame arm of BMP388::read_next_fifo_data_frame
(bmp388_core.rs:603-648), after the FIFO length has been read: branch on the
temperature-present and pressure-present bits of the header byte, and pick the
with-time variant when sensor time is enabled and the FIFO length equals the
base frame length constant of the shape. -/
def read_sensor_frame (wst : BMP388FifoWithSensorTime) (header fifo_length : Nat)
    (s : BusState) : Except DriverError FifoData × BusState :=
  if header &&& BMP280_FIFO_SENSOR_FRAME_TEMPERATURE_BIT > 0 ∧
     header &&& BMP280_FIFO_SENSOR_FRAME_PRESSURE_BIT > 0 then
    if wst = BMP388FifoWithSensorTime.Enabled ∧
       fifo_length = BMP280_FIFO_FRAMLE_LENGTH_PRESSURE_TEMPERATURE then
      match read_fifo_frame_pressure_temperature_with_time s with
      | (Except.error e, s1) => (Except.error e, s1)
      | (Except.ok (pressure_raw, temperature_raw, sensor_time), s1) =>
        (Except.ok { pressure_raw := pressure_raw, temperature_raw := temperature_raw,
                     sensor_time := sensor_time, config_change := false }, s1)
    else
      match read_fifo_frame_pressure_temperature s with
      | (Except.error e, s1) => (Except.error e, s1)
      | (Except.ok (pressure_raw, temperature_raw), s1) =>
        (Except.ok { pressure_raw := pressure_raw, temperature_raw := temperature_raw,
                     sensor_time := none, config_change := false }, s1)
  else if header &&& BMP280_FIFO_SENSOR_FRAME_TEMPERATURE_BIT > 0 then
    if wst = BMP388FifoWithSensorTime.Enabled ∧
       fifo_length = BMP280_FIFO_FRAMLE_LENGTH_TEMPERATURE then
      match read_fifo_frame_temperature_with_time s with
      | (Except.error e, s1) => (Except.error e, s1)
      | (Except.ok (temperature_raw, sensor_time), s1) =>
        (Except.ok { pressure_raw := none, temperature_raw := temperature_raw,
                     sensor_time := sensor_time, config_change := false }, s1)
    else
      match read_fifo_frame_temperature s with
      | (Except.error e, s1) => (Except.error e, s1)
      | (Except.ok (temperature_raw), s1) =>
        (Except.ok { pressure_raw := none, temperature_raw := temperature_raw,
                     sensor_time := none, config_change := false }, s1)
  else if header &&& BMP280_FIFO_SENSOR_FRAME_PRESSURE_BIT > 0 then
    if wst = BMP388FifoWithSensorTime.Enabled ∧
       fifo_length = BMP280_FIFO_FRAMLE_LENGTH_PRESSURE then
      match read_fifo_frame_pressure_with_time s with
      | (Except.error e, s1) => (Except.error e, s1)
      | (Except.ok (pressure_raw, sensor_time), s1) =>
        (Except.ok { pressure_raw := pressure_raw, temperature_raw := none,
                     sensor_time := sensor_time, config_change := false }, s1)
    else
      match read_fifo_frame_pressure s with
      | (Except.error e, s1) => (Except.error e, s1)
      | (Except.ok (pressure_raw), s1) =>
        (Except.ok { pressure_raw := pressure_raw, temperature_raw := none,
                     sensor_time := none, config_change := false }, s1)
  else
    match read_word BMP388_REG_FIFO_DATA s with
    | (Except.error e, s1) => (Except.error e, s1)
    | (Except.ok _, s1) =>
      (Except.ok { pressure_raw := none, temperature_raw := none,
                   sensor_time := none, config_change := false }, s1)

/-- BMP388::read_next_fifo_data_frame (bmp388_core.rs:582-651): read the
header byte from the FIFO data register, classify the record, and parse it. -/
def read_next_fifo_data_frame (wst : BMP388FifoWithSensorTime) (s : BusState) :
    Except DriverError FifoData × BusState :=
  match get_fifo_data s with
  | (Except.error e, s1) => (Except.error e, s1)
  | (Except.ok header, s1) =>
    if header &&& BMP280_FIFO_CONTROL_FRAME_BIT > 0 then
      if header &&& BMP280_FIFO_CONTROL_FRAME_CONFIG_ERROR_BIT > 0 then
        match read_word BMP388_REG_FIFO_DATA s1 with
        | (Except.error e, s2) => (Except.error e, s2)
        | (Except.ok _, s2) => (Except.error DriverError.fifoConfig, s2)
      else if header &&& BMP280_FIFO_CONTROL_FRAME_CONFIG_CHANGE_BIT > 0 then
        match read_word BMP388_REG_FIFO_DATA s1 with
        | (Except.error e, s2) => (Except.error e, s2)
        | (Except.ok _, s2) =>
          (Except.ok { pressure_raw := none, temperature_raw := none,
                       sensor_time := none, config_change := true }, s2)
      else
        (Except.error (DriverError.unknownControlHeader header), s1)
    else if header &&& BMP280_FIFO_SENSOR_FRAME_BIT > 0 then
      match get_fifo_length s1 with
      | (Except.error e, s2) => (Except.error e, s2)
      | (Except.ok fifo_length, s2) => read_sensor_frame wst header fifo_length s2
    else
      (Except.error (DriverError.unknownHeader header), s1)

/- Calibration decoding (bmp388_core.rs:657-716).  Scale factors are the
decimal constants written in the source; coefficients are modelled as exact
rationals. -/

/-- BMP388::concat_bytes: ((msb as u16) << 8) | (lsb as u16). -/
def concat_bytes (msb lsb : Nat) : Nat :=
  msb <<< 8 ||| lsb

/-- Reinterpret a u16 bit pattern as an i16 (the `as i16` cast). -/
def toI16 (n : Nat) : Int :=
  if n % 65536 < 32768 then Int.ofNat (n % 65536) else Int.ofNat (n % 65536) - 65536

/-- Reinterpret a u8 bit pattern as an i8 (the `as i8` cast). -/
def toI8 (n : Nat) : Int :=
  if n % 256 < 128 then Int.ofNat (n % 256) else Int.ofNat (n % 256) - 256

/-- Two-sided-complement wrap of an integer into the i16 range, the release
semantics of i16 arithmetic. -/
def wrap_i16 (x : Int) : Int :=
  (x + 32768) % 65536 - 32768

/-- The i16 subtraction `par_p1 - 16384` with the overflow check of a debug
build: `none` means the subtraction leaves the i16 range and panics.
`b5` and `b6` are reg_data[5] and reg_data[6] of the calibration block. -/
def par_p1_sub_i16_checked (b5 b6 : Nat) : Option Int :=
  let a := toI16 (concat_bytes b6 b5)
  if -32768 ≤ a - 16384 ∧ a - 16384 ≤ 32767 then some (a - 16384) else none

/-- bmp388_core::CalibData, with the decoded (scaled) coefficients as exact
rationals in place of f64. -/
structure CalibData where
  par_p1 : ℚ
  par_p2 : ℚ
  par_p3 : ℚ
  par_p4 : ℚ
  par_p5 : ℚ
  par_p6 : ℚ
  par_p7 : ℚ
  par_p8 : ℚ
  par_p9 : ℚ
  par_p10 : ℚ
  par_p11 : ℚ
  par_t1 : ℚ
  par_t2 : ℚ
  par_t3 : ℚ
  deriving DecidableEq, Repr

/-- The pure decoding step of BMP388::get_calib_data applied to the 21-byte
register buffer (field offsets, signedness and scale factors as in
bmp388_core.rs:661-712). -/
def decode_calib (buf : List Nat) : CalibData :=
  let g := fun (i : Nat) => buf.getD i 0
  { par_t1 := (Int.ofNat (concat_bytes (g 1) (g 0)) : ℚ) * 256.0
    par_t2 := (Int.ofNat (concat_bytes (g 3) (g 2)) : ℚ) * 0.000000000931323
    par_t3 := (toI8 (g 4) : ℚ) * 0.000000000000004
    par_p1 := (wrap_i16 (toI16 (concat_bytes (g 6) (g 5)) - 16384) : ℚ) * 0.000000953674316
    par_p2 := (wrap_i16 (toI16 (concat_bytes (g 8) (g 7)) - 16384) : ℚ) * 0.000000001862645
    par_p3 := (toI8 (g 9) : ℚ) * 0.000000000232831
    par_p4 := (toI8 (g 10) : ℚ) * 0.000000000007276
    par_p5 := (Int.ofNat (concat_bytes (g 12) (g 11)) : ℚ) * 8.0
    par_p6 := (Int.ofNat (concat_bytes (g 14) (g 13)) : ℚ) * 0.015625
    par_p7 := (toI8 (g 15) : ℚ) * 0.00390625
    par_p8 := (toI8 (g 16) : ℚ) * 0.000030517578125
    par_p9 := (toI16 (concat_bytes (g 18) (g 17)) : ℚ) * 0.000000000000004
    par_p10 := (toI8 (g 19) : ℚ) * 0.000000000000004
    par_p11 := (toI8 (g 20) : ℚ) * 0.00000000000000000002710505431213761 }

/-- BMP388::get_calib_data: one 21-byte block read of the trimming
coefficients; the returned byte count is bound to `_bytes_read` and ignored,
so the decode runs on the (zero-padded) buffer whatever was delivered. -/
def get_calib_data (s : BusState) : Except DriverError CalibData × BusState :=
  match read_block BMP388_REG_TRIMMING_COEFFICIENTS BMP388_LEN_TRIMMING_COEFFICIENTS s with
  | (Except.error e, s1) => (Except.error e, s1)
  | (Except.ok (_bytes_read, buf), s1) => (Except.ok (decode_calib buf), s1)

/-- BMP388::get_temperature (bmp388_core.rs:772-778), over exact rationals. -/
def get_temperature (c : CalibData) (temperature_raw : Nat) : ℚ :=
  let tr : ℚ := (temperature_raw : ℚ)
  let d1 := tr - c.par_t1
  let d2 := d1 * c.par_t2
  d2 + (d1 * d1) * c.par_t3

/-- BMP388::get_pressure (bmp388_core.rs:780-798), over exact rationals. -/
def get_pressure (c : CalibData) (pressure_raw : Nat) (temperature : ℚ) : ℚ :=
  let t2 := temperature ^ 2
  let t3 := temperature ^ 3
  let pr : ℚ := (pressure_raw : ℚ)
  let pa1 := c.par_p6 * temperature
  let pa2 := c.par_p7 * t2
  let pa3 := c.par_p8 * t3
  let out1 := c.par_p5 + pa1 + pa2 + pa3
  let pb1 := c.par_p2 * temperature
  let pb2 := c.par_p3 * t2
  let pb3 := c.par_p4 * t3
  let out2 := pr * (c.par_p1 + pb1 + pb2 + pb3)
  let pc1 := pr ^ 2
  let pc2 := c.par_p9 + c.par_p10 * temperature
  let pc3 := pc1 * pc2
  let pc4 := pc3 + pr ^ 3 * c.par_p11
  out1 + out2 + pc4

/-- The driver handle produced by BMP388::new: calibration data plus the
cached sensor-time flag (initialised Disabled). -/
structure BMP388 where
  with_sensor_time : BMP388FifoWithSensorTime
  calib_data : CalibData
  deriving DecidableEq, Repr

/-- BMP388::soft_reset: write the reset command, then sleep the settle
delay. -/
def soft_reset (s : BusState) : Except DriverError Unit × BusState :=
  match write_byte BMP388_REG_CMD BMP388_CMD_SOFT_RESET s with
  | (Except.error e, s1) => (Except.error e, s1)
  | (Except.ok _, s1) => (Except.ok (), sleep_ms BMP388_STARTUP_DELAY_MS s1)

/-- BMP388::new (bmp388_core.rs:152-181): select the device address, read and
check the chip id, soft-reset, read calibration, then write the oversampling,
IIR filter and output-data-rate registers.  The oversampling, filter and rate
arguments are the enum register values (`.value()`). -/
def BMP388_new (device_addr osr_p osr_t irr_filter odr : Nat) (s : BusState) :
    Except DriverError BMP388 × BusState :=
  match set_slave device_addr s with
  | (Except.error e, s1) => (Except.error e, s1)
  | (Except.ok _, s1) =>
    match read_byte BMP388_REG_CHIP_ID s1 with
    | (Except.error e, s2) => (Except.error e, s2)
    | (Except.ok chip_id, s2) =>
      if chip_id ≠ BMP388_CHIP_ID then
        (Except.error (DriverError.unexpectedChipId chip_id), s2)
      else
        match soft_reset s2 with
        | (Except.error e, s3) => (Except.error e, s3)
        | (Except.ok _, s3) =>
          match get_calib_data s3 with
          | (Except.error e, s4) => (Except.error e, s4)
          | (Except.ok calib, s4) =>
            match write_byte BMP388_REG_OVERSAMPLING_RATE (osr_t <<< 3 ||| osr_p) s4 with
            | (Except.error e, s5) => (Except.error e, s5)
            | (Except.ok _, s5) =>
              match write_byte BMP388_REG_CONFIG irr_filter s5 with
              | (Except.error e, s6) => (Except.error e, s6)
              | (Except.ok _, s6) =>
                match write_byte BMP388_REG_OUTPUT_DATA_RATE odr s6 with
                | (Except.error e, s7) => (Except.error e, s7)
                | (Except.ok _, s7) =>
                  (Except.ok { with_sensor_time := BMP388FifoWithSensorTime.Disabled,
                               calib_data := calib }, s7)

/-- bmp388_core::DataRaw. -/
structure DataRaw where
  pressure : Nat
  temperature : Nat
  deriving DecidableEq, Repr

/-- BMP388::get_data_raw (bmp388_core.rs:718-739): one 6-byte block read at
the pressure data register; bytes 0..2 are pressure XLSB/LSB/MSB, bytes 3..5
temperature XLSB/LSB/MSB. -/
def get_data_raw (s : BusState) : Except DriverError DataRaw × BusState :=
  match read_block BMP388_REG_PRESSURE_DATA
      (BMP388_LEN_PRESSURE_DATA + BMP388_LEN_TEMPERATURE_DATA) s with
  | (Except.error e, s1) => (Except.error e, s1)
  | (Except.ok (_bytes_read, buf), s1) =>
    (Except.ok { pressure := assemble_msb_lsb_xlsb (buf.getD 2 0) (buf.getD 1 0) (buf.getD 0 0),
                 temperature := assemble_msb_lsb_xlsb (buf.getD 5 0) (buf.getD 4 0) (buf.getD 3 0) }, s1)

/-- BMP388::get_pressure_raw (bmp388_core.rs:741-748). -/
def get_pressure_raw (s : BusState) : Except DriverError Nat × BusState :=
  match read_block BMP388_REG_PRESSURE_DATA BMP388_LEN_PRESSURE_DATA s with
  | (Except.error e, s1) => (Except.error e, s1)
  | (Except.ok (_bytes_read, buf), s1) =>
    (Except.ok (assemble_msb_lsb_xlsb (buf.getD 2 0) (buf.getD 1 0) (buf.getD 0 0)), s1)

/-- The raw-sample reassembly of BME280::get_sensor_data (bme280.rs:481-505)
for pressure and temperature: msb shifted by 12, lsb by 4, and the high
nibble of the xlsb byte. -/
def bme280_assemble_raw (msb lsb xlsb : Nat) : Nat :=
  msb <<< 12 ||| lsb <<< 4 ||| xlsb >>> 4

/-- Modelled from the spec wording of the RawSample data model (for comparison
with the assembly functions of the source): `msb<<16 | lsb<<8 |
xlsb_high_nibble`. -/
def spec_assemble_raw (msb lsb xlsb : Nat) : Nat :=
  msb <<< 16 ||| lsb <<< 8 ||| xlsb >>> 4

/-- Modelled from the spec wording of claim C1 (for comparison with the FIFO
length comparison constant of the source): the exact expected size of a
combined pressure+temperature sensor frame including the trailing 3-byte
sensor-time field, i.e. the 7-byte base record plus the 3 time bytes. -/
def pt_frame_size_with_time_field : Nat :=
  BMP280_FIFO_FRAMLE_LENGTH_PRESSURE_TEMPERATURE + 3

/-- The FIFO drain loop of src/examples/bmp388-example.rs (main, Fifo mode):
each iteration performs one read_next_fifo_data_frame call and then reads the
FIFO length, stopping at the first zero length.  The argument lists the
successive FIFO length readings; the result counts the frame reads the loop
performs, or none if the script of readings runs out before a zero was
reported. -/
def fifo_drain_frame_reads : List Nat → Option Nat
  | [] => none
  | l :: ls =>
    if l = 0 then some 1
    else
      match fifo_drain_frame_reads ls with
      | some k => some (k + 1)
      | none => none

/-- The base frame length constant (no sensor-time field) that the FIFO
decoder compares the just-read FIFO length against, per sensor-frame header
shape: 7 for combined pressure+temperature records, 4 otherwise. -/
def base_frame_len (header : Nat) : Nat :=
  if header &&& BMP280_FIFO_SENSOR_FRAME_TEMPERATURE_BIT > 0 ∧
     header &&& BMP280_FIFO_SENSOR_FRAME_PRESSURE_BIT > 0 then
    BMP280_FIFO_FRAMLE_LENGTH_PRESSURE_TEMPERATURE
  else if header &&& BMP280_FIFO_SENSOR_FRAME_TEMPERATURE_BIT > 0 then
    BMP280_FIFO_FRAMLE_LENGTH_TEMPERATURE
  else
    BMP280_FIFO_FRAMLE_LENGTH_PRESSURE

/-- Reduction lemma: read_next_fifo_data_frame on a sensor-classified header
consumes the header byte and the FIFO length word and hands over to the
sensor-frame arm. -/
theorem read_next_sensor_reduce (wst : BMP388FifoWithSensorTime) (h w : Nat)
    (rest : List I2cResp) (h_lt : h < 256)
    (hnc : h &&& BMP280_FIFO_CONTROL_FRAME_BIT = 0)
    (hsf : h &&& BMP280_FIFO_SENSOR_FRAME_BIT > 0) :
    read_next_fifo_data_frame wst (initBus (I2cResp.byte h :: I2cResp.word w :: rest)) =
      read_sensor_frame wst h (w % 65536)
        { resps := rest, trace := [I2cOp.readByte BMP388_REG_FIFO_DATA,
                                   I2cOp.readWord BMP388_REG_FIFO_LENGTH] } := by
  simp only [read_next_fifo_data_frame, get_fifo_data, get_fifo_length, read_byte, read_word,
    issue, initBus, Nat.mod_eq_of_lt h_lt]
  simp [hnc, hsf]

/-- Lemma: a left shift joined by bitwise or with a remainder below the shift
width is plain positional arithmetic. -/
theorem shiftLeft_lor_eq_add (a b n : Nat) (hb : b < 2 ^ n) :
    a <<< n ||| b = a * 2 ^ n + b := by
  rw [Nat.shiftLeft_eq, Nat.mul_comm a (2 ^ n), ← Nat.mul_add_lt_is_or hb a, Nat.mul_comm]

/-- Claim C1 (counterexample): with sensor time enabled, a combined
pressure+temperature sensor frame (header 0x94) whose just-read FIFO length
is 7 — which differs from the expected frame size including the trailing
3-byte time field (10) — still makes the decoder read the with-time variant
and return sensor_time = Some, contradicting the claim that sensor time is
None whenever the length is not the time-inclusive frame size. -/
theorem fifo_sensor_time_length_spec_cex :
    (read_next_fifo_data_frame BMP388FifoWithSensorTime.Enabled
        (initBus [I2cResp.byte 0x94, I2cResp.word 7,
                  I2cResp.block [0x94, 1, 2, 3, 4, 5, 6, 0xA4, 7, 8, 9]])).1 =
      Except.ok { pressure_raw := some 394500, temperature_raw := some 197121,
                  sensor_time := some 591879, config_change := false } ∧
    (7 : Nat) ≠ pt_frame_size_with_time_field :=
  ⟨rfl, by decide⟩

/-- Claim C1 (amended): for a sensor-classified header carrying at least one
data field, the decoder issues exactly one block read whose length is the
base frame size of the shape plus the 4-byte sensor-time extension exactly
when the cached sensor-time flag is Enabled AND the just-read FIFO length
equals the base frame size excluding the time field (7 for combined, 4 for
single-quantity frames); in every other case the returned frame has
sensor_time = none even when sensor time is enabled. -/
theorem fifo_sensor_time_condition (wst : BMP388FifoWithSensorTime) (h w : Nat) (bs : List Nat)
    (h_lt : h < 256)
    (hnc : h &&& BMP280_FIFO_CONTROL_FRAME_BIT = 0)
    (hsf : h &&& BMP280_FIFO_SENSOR_FRAME_BIT > 0)
    (hdata : h &&& BMP280_FIFO_SENSOR_FRAME_TEMPERATURE_BIT > 0 ∨
             h &&& BMP280_FIFO_SENSOR_FRAME_PRESSURE_BIT > 0) :
    (read_next_fifo_data_frame wst
        (initBus [I2cResp.byte h, I2cResp.word w, I2cResp.block bs])).2.trace =
      [I2cOp.readByte BMP388_REG_FIFO_DATA, I2cOp.readWord BMP388_REG_FIFO_LENGTH,
       I2cOp.readBlock BMP388_REG_FIFO_DATA
         (if wst = BMP388FifoWithSensorTime.Enabled ∧ w % 65536 = base_frame_len h then
            base_frame_len h + BMP280_FIFO_FRAMLE_LENGTH_SENSOR_TIME
          else base_frame_len h)] ∧
    (¬ (wst = BMP388FifoWithSensorTime.Enabled ∧ w % 65536 = base_frame_len h) →
      ∀ fr : FifoData,
        (read_next_fifo_data_frame wst
            (initBus [I2cResp.byte h, I2cResp.word w, I2cResp.block bs])).1 = Except.ok fr →
        fr.sensor_time = none) := by
  rw [read_next_sensor_reduce wst h w [I2cResp.block bs] h_lt hnc hsf]
  by_cases hT : h &&& BMP280_FIFO_SENSOR_FRAME_TEMPERATURE_BIT > 0
  · by_cases hP : h &&& BMP280_FIFO_SENSOR_FRAME_PRESSURE_BIT > 0
    · have hbase : base_frame_len h = BMP280_FIFO_FRAMLE_LENGTH_PRESSURE_TEMPERATURE := by
        simp [base_frame_len, hT, hP]
      rw [hbase]
      by_cases hcond : wst = BMP388FifoWithSensorTime.Enabled ∧
          w % 65536 = BMP280_FIFO_FRAMLE_LENGTH_PRESSURE_TEMPERATURE
      · rw [if_pos hcond]
        constructor
        · simp [read_sensor_frame, hT, hP, hcond,
            read_fifo_frame_pressure_temperature_with_time, read_block, issue,
            BMP280_FIFO_FRAMLE_LENGTH_PRESSURE_TEMPERATURE,
            BMP280_FIFO_FRAMLE_LENGTH_SENSOR_TIME]
        · intro hncond
          exact absurd hcond hncond
      · rw [if_neg hcond]
        constructor
        · simp [read_sensor_frame, hT, hP, hcond,
            read_fifo_frame_pressure_temperature, read_block, issue]
        · intro _ fr hfr
          simp [read_sensor_frame, hT, hP, hcond,
            read_fifo_frame_pressure_temperature, read_block, issue] at hfr
          rw [← hfr]
    · have hbase : base_frame_len h = BMP280_FIFO_FRAMLE_LENGTH_TEMPERATURE := by
        simp [base_frame_len, hT, hP]
      rw [hbase]
      by_cases hcond : wst = BMP388FifoWithSensorTime.Enabled ∧
          w % 65536 = BMP280_FIFO_FRAMLE_LENGTH_TEMPERATURE
      · rw [if_pos hcond]
        constructor
        · simp [read_sensor_frame, hT, hP, hcond,
            read_fifo_frame_temperature_with_time, read_block, issue,
            BMP280_FIFO_FRAMLE_LENGTH_TEMPERATURE,
            BMP280_FIFO_FRAMLE_LENGTH_SENSOR_TIME]
        · intro hncond
          exact absurd hcond hncond
      · rw [if_neg hcond]
        constructor
        · simp [read_sensor_frame, hT, hP, hcond,
            read_fifo_frame_temperature, read_block, issue]
        · intro _ fr hfr
          simp [read_sensor_frame, hT, hP, hcond,
            read_fifo_frame_temperature, read_block, issue] at hfr
          rw [← hfr]
  · have hP : h &&& BMP280_FIFO_SENSOR_FRAME_PRESSURE_BIT > 0 := by
      rcases hdata with hd | hd
      · exact absurd hd hT
      · exact hd
    have hbase : base_frame_len h = BMP280_FIFO_FRAMLE_LENGTH_PRESSURE := by
      simp [base_frame_len, hT, hP]
    rw [hbase]
    by_cases hcond : wst = BMP388FifoWithSensorTime.Enabled ∧
        w % 65536 = BMP280_FIFO_FRAMLE_LENGTH_PRESSURE
    · rw [if_pos hcond]
      constructor
      · simp [read_sensor_frame, hT, hP, hcond,
          read_fifo_frame_pressure_with_time, read_block, issue,
          BMP280_FIFO_FRAMLE_LENGTH_PRESSURE,
          BMP280_FIFO_FRAMLE_LENGTH_SENSOR_TIME]
      · intro hncond
        exact absurd hcond hncond
    · rw [if_neg hcond]
      constructor
      · simp [read_sensor_frame, hT, hP, hcond,
          read_fifo_frame_pressure, read_block, issue]
      · intro _ fr hfr
        simp [read_sensor_frame, hT, hP, hcond,
          read_fifo_frame_pressure, read_block, issue] at hfr
        rw [← hfr]

/-- Claim C1 (witness): a pressure-free temperature frame header 0x90 with
sensor time disabled and FIFO length 4 issues the base 4-byte block read. -/
theorem fifo_sensor_time_condition_witness :
    (read_next_fifo_data_frame BMP388FifoWithSensorTime.Disabled
        (initBus [I2cResp.byte 0x90, I2cResp.word 4, I2cResp.block []])).2.trace =
      [I2cOp.readByte BMP388_REG_FIFO_DATA, I2cOp.readWord BMP388_REG_FIFO_LENGTH,
       I2cOp.readBlock BMP388_REG_FIFO_DATA
         (if BMP388FifoWithSensorTime.Disabled = BMP388FifoWithSensorTime.Enabled ∧
             4 % 65536 = base_frame_len 0x90 then
            base_frame_len 0x90 + BMP280_FIFO_FRAMLE_LENGTH_SENSOR_TIME
          else base_frame_len 0x90)] :=
  (fifo_sensor_time_condition BMP388FifoWithSensorTime.Disabled 0x90 4 []
    (by decide) (by decide) (by decide) (by decide)).1

/-- Claim C2 (counterexample): header byte 0x84 has the top bit (0x80) set and
the error flag bit (0x04) set, so per the claim it would be a control frame
that drains a discard word and fails with the FIFO-configuration error; the
decoder instead treats it as a sensor frame and returns a successful pressure
reading. -/
theorem fifo_header_top_bit_cex :
    0x84 &&& BMP280_FIFO_SENSOR_FRAME_BIT > 0 ∧
    0x84 &&& BMP280_FIFO_CONTROL_FRAME_CONFIG_ERROR_BIT > 0 ∧
    (read_next_fifo_data_frame BMP388FifoWithSensorTime.Disabled
        (initBus [I2cResp.byte 0x84, I2cResp.word 4, I2cResp.block [0x84, 1, 2, 3]])).1 =
      Except.ok { pressure_raw := some 197121, temperature_raw := none,
                  sensor_time := none, config_change := false } :=
  ⟨by decide, by decide, rfl⟩

/-- Claim C2 (amended): the decoder classifies by the second-highest bit
(0x40) as control frame — with the error flag bit also set it drains one
discard word and fails with the FIFO-configuration error — and by the top bit
(0x80, with 0x40 clear) as sensor frame, whose handling depends only on the
temperature-present and pressure-present flag bits of that same header
byte. -/
theorem fifo_header_classification (wst : BMP388FifoWithSensorTime) (h : Nat) (h_lt : h < 256) :
    (∀ (w : Nat) (rest : List I2cResp),
      h &&& BMP280_FIFO_CONTROL_FRAME_BIT > 0 →
      h &&& BMP280_FIFO_CONTROL_FRAME_CONFIG_ERROR_BIT > 0 →
      read_next_fifo_data_frame wst (initBus (I2cResp.byte h :: I2cResp.word w :: rest)) =
        (Except.error DriverError.fifoConfig,
         { resps := rest, trace := [I2cOp.readByte BMP388_REG_FIFO_DATA,
                                    I2cOp.readWord BMP388_REG_FIFO_DATA] })) ∧
    (∀ (w : Nat) (rest : List I2cResp),
      h &&& BMP280_FIFO_CONTROL_FRAME_BIT = 0 →
      h &&& BMP280_FIFO_SENSOR_FRAME_BIT > 0 →
      read_next_fifo_data_frame wst (initBus (I2cResp.byte h :: I2cResp.word w :: rest)) =
        read_sensor_frame wst h (w % 65536)
          { resps := rest, trace := [I2cOp.readByte BMP388_REG_FIFO_DATA,
                                     I2cOp.readWord BMP388_REG_FIFO_LENGTH] }) ∧
    (∀ (h2 fifo_length : Nat) (s : BusState),
      h &&& BMP280_FIFO_SENSOR_FRAME_TEMPERATURE_BIT =
        h2 &&& BMP280_FIFO_SENSOR_FRAME_TEMPERATURE_BIT →
      h &&& BMP280_FIFO_SENSOR_FRAME_PRESSURE_BIT =
        h2 &&& BMP280_FIFO_SENSOR_FRAME_PRESSURE_BIT →
      read_sensor_frame wst h fifo_length s = read_sensor_frame wst h2 fifo_length s) := by
  refine ⟨?_, ?_, ?_⟩
  · intro w rest hctrl herr
    simp only [read_next_fifo_data_frame, get_fifo_data, read_byte, read_word, issue, initBus,
      Nat.mod_eq_of_lt h_lt, hctrl, herr, if_true, if_pos]
    simp [hctrl, herr]
  · intro w rest hctrl hsens
    simp only [read_next_fifo_data_frame, get_fifo_data, get_fifo_length, read_byte, read_word,
      issue, initBus, Nat.mod_eq_of_lt h_lt]
    simp [hctrl, hsens]
  · intro h2 fifo_length s hT hP
    simp only [read_sensor_frame, hT, hP]

/-- Claim C2 (witness): header 0x44 (control + error flag) fails with the
FIFO-configuration error after one discard word; header 0x90 is handed to the
sensor-frame arm; and the sensor-frame arm treats headers 0x90 and 0xB0,
which agree on the temperature and pressure flag bits, identically. -/
theorem fifo_header_classification_witness :
    (read_next_fifo_data_frame BMP388FifoWithSensorTime.Disabled
        (initBus [I2cResp.byte 0x44, I2cResp.word 0]) =
      (Except.error DriverError.fifoConfig,
       { resps := [], trace := [I2cOp.readByte BMP388_REG_FIFO_DATA,
                                I2cOp.readWord BMP388_REG_FIFO_DATA] })) ∧
    (read_next_fifo_data_frame BMP388FifoWithSensorTime.Disabled
        (initBus [I2cResp.byte 0x90, I2cResp.word 4]) =
      read_sensor_frame BMP388FifoWithSensorTime.Disabled 0x90 (4 % 65536)
        { resps := [], trace := [I2cOp.readByte BMP388_REG_FIFO_DATA,
                                 I2cOp.readWord BMP388_REG_FIFO_LENGTH] }) ∧
    (read_sensor_frame BMP388FifoWithSensorTime.Disabled 0x90 4 (initBus []) =
      read_sensor_frame BMP388FifoWithSensorTime.Disabled 0xB0 4 (initBus [])) :=
  ⟨(fifo_header_classification BMP388FifoWithSensorTime.Disabled 0x44 (by decide)).1
      0 [] (by decide) (by decide),
   (fifo_header_classification BMP388FifoWithSensorTime.Disabled 0x90 (by decide)).2.1
      4 [] (by decide) (by decide),
   (fifo_header_classification BMP388FifoWithSensorTime.Disabled 0x90 (by decide)).2.2
      0xB0 4 (initBus []) (by decide) (by decide)⟩

/-- Claim C3 (counterexample): the BMP388 data-register reassembly keeps the
whole xlsb byte: on the byte triple (msb, lsb, xlsb) = (0, 0, 255) the driver
produces 255 where the spec formula (high nibble of xlsb) gives 15, and at
msb byte 16 the assembled value reaches 2^20, so it is not confined to 20
effective bits. -/
theorem raw_assembly_spec_cex :
    assemble_msb_lsb_xlsb 0 0 255 = 255 ∧
    spec_assemble_raw 0 0 255 = 15 ∧
    (get_pressure_raw (initBus [I2cResp.block [255, 0, 0]])).1 = Except.ok 255 ∧
    2 ^ 20 ≤ assemble_msb_lsb_xlsb 16 0 0 :=
  ⟨by decide, by decide, rfl, by decide⟩

/-- Claim C3 (amended): for byte triples, the BMP388 assembles
msb<<16 | lsb<<8 | xlsb with the full xlsb byte — an unsigned value of at
most 24 effective bits — while the BME280 assembles
msb<<12 | lsb<<4 | (high nibble of xlsb), an unsigned value of at most 20
effective bits. -/
theorem raw_assembly_arith (msb lsb xlsb : Nat)
    (hm : msb < 256) (hl : lsb < 256) (hx : xlsb < 256) :
    assemble_msb_lsb_xlsb msb lsb xlsb = msb * 65536 + lsb * 256 + xlsb ∧
    assemble_msb_lsb_xlsb msb lsb xlsb < 2 ^ 24 ∧
    bme280_assemble_raw msb lsb xlsb = msb * 4096 + lsb * 16 + xlsb / 16 ∧
    bme280_assemble_raw msb lsb xlsb < 2 ^ 20 := by
  have h1 : lsb <<< 8 ||| xlsb = lsb * 256 + xlsb := by
    have := shiftLeft_lor_eq_add lsb xlsb 8 (by omega)
    simpa using this
  have h2 : assemble_msb_lsb_xlsb msb lsb xlsb = msb * 65536 + (lsb * 256 + xlsb) := by
    rw [assemble_msb_lsb_xlsb, Nat.lor_assoc, h1]
    have := shiftLeft_lor_eq_add msb (lsb * 256 + xlsb) 16 (by omega)
    simpa using this
  have hx4 : xlsb >>> 4 = xlsb / 16 := by
    rw [Nat.shiftRight_eq_div_pow]
  have h3 : lsb <<< 4 ||| xlsb >>> 4 = lsb * 16 + xlsb / 16 := by
    rw [hx4]
    have := shiftLeft_lor_eq_add lsb (xlsb / 16) 4 (by omega)
    simpa using this
  have h4 : bme280_assemble_raw msb lsb xlsb = msb * 4096 + (lsb * 16 + xlsb / 16) := by
    rw [bme280_assemble_raw, Nat.lor_assoc, h3]
    have := shiftLeft_lor_eq_add msb (lsb * 16 + xlsb / 16) 12 (by omega)
    simpa using this
  refine ⟨by omega, ?_, by omega, ?_⟩
  · rw [h2]; omega
  · rw [h4]; omega

/-- Claim C3 (witness): the two reassembly formulas evaluated on the byte
triple (18, 52, 171). -/
theorem raw_assembly_arith_witness :
    assemble_msb_lsb_xlsb 18 52 171 = 1193131 ∧
    assemble_msb_lsb_xlsb 18 52 171 < 2 ^ 24 ∧
    bme280_assemble_raw 18 52 171 = 74570 ∧
    bme280_assemble_raw 18 52 171 < 2 ^ 20 :=
  raw_assembly_arith 18 52 171 (by decide) (by decide) (by decide)

/-- Claim C4 (counterexample): a successful block read that delivers zero of
the requested 21 calibration bytes is accepted — get_calib_data returns Ok
with the coefficient set decoded from the all-zero buffer instead of
failing. -/
theorem calib_partial_block_accepted_cex :
    get_calib_data (initBus [I2cResp.block []]) =
      (Except.ok (decode_calib (List.replicate 21 0)),
       { resps := [], trace := [I2cOp.readBlock BMP388_REG_TRIMMING_COEFFICIENTS
                                  BMP388_LEN_TRIMMING_COEFFICIENTS] }) := rfl

/-- Claim C4 (amended): any transport error during the 21-byte calibration
block read makes get_calib_data fail; but the delivered byte count of a
successful block read is ignored — even a partial (short) block yields Ok,
with the coefficients decoded from the delivered bytes padded by the zero
fill of the buffer. -/
theorem calib_block_read_outcomes :
    (∀ rest : List I2cResp,
      get_calib_data (initBus (I2cResp.err :: rest)) =
        (Except.error DriverError.transport,
         { resps := rest,
           trace := [I2cOp.readBlock BMP388_REG_TRIMMING_COEFFICIENTS
                       BMP388_LEN_TRIMMING_COEFFICIENTS] })) ∧
    (∀ (bs : List Nat) (rest : List I2cResp),
      get_calib_data (initBus (I2cResp.block bs :: rest)) =
        (Except.ok (decode_calib
            ((bs.take BMP388_LEN_TRIMMING_COEFFICIENTS).map (fun x => x % 256) ++
             List.replicate (BMP388_LEN_TRIMMING_COEFFICIENTS -
               ((bs.take BMP388_LEN_TRIMMING_COEFFICIENTS).map (fun x => x % 256)).length) 0)),
         { resps := rest,
           trace := [I2cOp.readBlock BMP388_REG_TRIMMING_COEFFICIENTS
                       BMP388_LEN_TRIMMING_COEFFICIENTS] })) := by
  constructor
  · intro rest
    simp [get_calib_data, read_block, issue, initBus]
  · intro bs rest
    simp [get_calib_data, read_block, issue, initBus]

/-- Claim C5: with calibration constants t1 = 0, t2 = 1, t3 = 0 the computed
temperature at raw sample 0 is exactly 0; and with all pressure constants
zero except p1, the computed pressure is exactly raw × p1 for every raw
pressure sample and every temperature. -/
theorem compensation_sanity (c c2 : CalibData) (praw : Nat) (t : ℚ)
    (ht1 : c.par_t1 = 0) (ht2 : c.par_t2 = 1) (ht3 : c.par_t3 = 0)
    (hp2 : c2.par_p2 = 0) (hp3 : c2.par_p3 = 0) (hp4 : c2.par_p4 = 0)
    (hp5 : c2.par_p5 = 0) (hp6 : c2.par_p6 = 0) (hp7 : c2.par_p7 = 0)
    (hp8 : c2.par_p8 = 0) (hp9 : c2.par_p9 = 0) (hp10 : c2.par_p10 = 0)
    (hp11 : c2.par_p11 = 0) :
    get_temperature c 0 = 0 ∧ get_pressure c2 praw t = (praw : ℚ) * c2.par_p1 := by
  constructor
  · simp [get_temperature, ht1, ht2, ht3]
  · simp only [get_pressure, hp2, hp3, hp4, hp5, hp6, hp7, hp8, hp9, hp10, hp11]
    ring

/-- Claim C5 (witness): the degenerate coefficient sets evaluated at raw
sample 0 for temperature and at raw pressure 3, temperature 2, p1 = 5. -/
theorem compensation_sanity_witness :
    get_temperature ⟨0, 0, 0, 0, 0, 0, 0, 0, 0, 0, 0, 0, 1, 0⟩ 0 = 0 ∧
    get_pressure ⟨5, 0, 0, 0, 0, 0, 0, 0, 0, 0, 0, 0, 1, 0⟩ 3 2 = ((3 : Nat) : ℚ) * 5 :=
  compensation_sanity ⟨0, 0, 0, 0, 0, 0, 0, 0, 0, 0, 0, 0, 1, 0⟩
    ⟨5, 0, 0, 0, 0, 0, 0, 0, 0, 0, 0, 0, 1, 0⟩ 3 2
    rfl rfl rfl rfl rfl rfl rfl rfl rfl rfl rfl rfl rfl

/-- Claim C6: for every identity byte different from the expected chip id,
BMP388::new fails with the chip-id mismatch error right after the identity
read; the issued operations are exactly the address select and the identity
read, so no register write (no soft reset, calibration, oversampling, filter
or data-rate access) ever happens. -/
theorem bringup_chip_id_mismatch (addr osr_p osr_t irr_filter odr b : Nat)
    (rest : List I2cResp) (hb : b < 256) (hne : b ≠ BMP388_CHIP_ID) :
    BMP388_new addr osr_p osr_t irr_filter odr
        (initBus (I2cResp.ack :: I2cResp.byte b :: rest)) =
      (Except.error (DriverError.unexpectedChipId b),
       { resps := rest,
         trace := [I2cOp.setSlave addr, I2cOp.readByte BMP388_REG_CHIP_ID] }) ∧
    write_ops [I2cOp.setSlave addr, I2cOp.readByte BMP388_REG_CHIP_ID] = [] := by
  constructor
  · simp only [BMP388_new, set_slave, read_byte, issue, initBus, Nat.mod_eq_of_lt hb]
    simp [hne]
  · simp [write_ops]

/-- Claim C6 (witness): identity byte 0x42 (expected 0x50) at device address
0x76. -/
theorem bringup_chip_id_mismatch_witness :
    BMP388_new 0x76 1 1 0 3 (initBus [I2cResp.ack, I2cResp.byte 0x42]) =
      (Except.error (DriverError.unexpectedChipId 0x42),
       { resps := [],
         trace := [I2cOp.setSlave 0x76, I2cOp.readByte BMP388_REG_CHIP_ID] }) ∧
    write_ops [I2cOp.setSlave 0x76, I2cOp.readByte BMP388_REG_CHIP_ID] = [] :=
  bringup_chip_id_mismatch 0x76 1 1 0 3 0x42 [] (by decide) (by decide)

/-- Claim C7: for a sensor-frame header with only the pressure-present flag
set and sensor time disabled, the decoder issues exactly one 4-byte block
read from the FIFO data register, and when that block read delivers all 4
bytes with the pressure flag set in the in-block header the returned frame is
pressure-only: pressure_raw = Some, temperature_raw = None,
sensor_time = None, config_change = false. -/
theorem fifo_pressure_only_frame (h w b0 b1 b2 b3 : Nat) (tl : List Nat)
    (h_lt : h < 256)
    (hnc : h &&& BMP280_FIFO_CONTROL_FRAME_BIT = 0)
    (hsf : h &&& BMP280_FIFO_SENSOR_FRAME_BIT > 0)
    (hnt : h &&& BMP280_FIFO_SENSOR_FRAME_TEMPERATURE_BIT = 0)
    (hp : h &&& BMP280_FIFO_SENSOR_FRAME_PRESSURE_BIT > 0)
    (hb0 : b0 < 256) (hb1 : b1 < 256) (hb2 : b2 < 256) (hb3 : b3 < 256)
    (hflag : b0 &&& BMP280_FIFO_SENSOR_FRAME_PRESSURE_BIT > 0) :
    (∀ bs : List Nat,
      block_reads (read_next_fifo_data_frame BMP388FifoWithSensorTime.Disabled
          (initBus [I2cResp.byte h, I2cResp.word w, I2cResp.block bs])).2.trace
        = [(BMP388_REG_FIFO_DATA, BMP280_FIFO_FRAMLE_LENGTH_PRESSURE)]) ∧
    (read_next_fifo_data_frame BMP388FifoWithSensorTime.Disabled
        (initBus [I2cResp.byte h, I2cResp.word w, I2cResp.block (b0 :: b1 :: b2 :: b3 :: tl)])).1
      = Except.ok { pressure_raw := some (assemble_msb_lsb_xlsb b3 b2 b1),
                    temperature_raw := none, sensor_time := none, config_change := false } := by
  constructor
  · intro bs
    simp [read_next_fifo_data_frame, get_fifo_data, get_fifo_length, read_byte, read_word,
      read_block, issue, initBus, read_sensor_frame, read_fifo_frame_pressure,
      Nat.mod_eq_of_lt h_lt, hnc, hsf, hnt, hp, block_reads]
  · simp [read_next_fifo_data_frame, get_fifo_data, get_fifo_length, read_byte, read_word,
      read_block, issue, initBus, read_sensor_frame, read_fifo_frame_pressure,
      Nat.mod_eq_of_lt h_lt, Nat.mod_eq_of_lt hb0, Nat.mod_eq_of_lt hb1, Nat.mod_eq_of_lt hb2,
      Nat.mod_eq_of_lt hb3, hnc, hsf, hnt, hp, hflag,
      BMP280_FIFO_FRAMLE_LENGTH_PRESSURE]

/-- Claim C7 (witness): header 0x84, FIFO length 9, and a full 4-byte block
delivery 0x84, 1, 2, 3. -/
theorem fifo_pressure_only_frame_witness :
    block_reads (read_next_fifo_data_frame BMP388FifoWithSensorTime.Disabled
        (initBus [I2cResp.byte 0x84, I2cResp.word 9, I2cResp.block [5]])).2.trace
      = [(BMP388_REG_FIFO_DATA, BMP280_FIFO_FRAMLE_LENGTH_PRESSURE)] ∧
    (read_next_fifo_data_frame BMP388FifoWithSensorTime.Disabled
        (initBus [I2cResp.byte 0x84, I2cResp.word 9, I2cResp.block [0x84, 1, 2, 3]])).1
      = Except.ok { pressure_raw := some (assemble_msb_lsb_xlsb 3 2 1),
                    temperature_raw := none, sensor_time := none, config_change := false } := by
  have hmain := fifo_pressure_only_frame 0x84 9 0x84 1 2 3 []
    (by decide) (by decide) (by decide) (by decide) (by decide)
    (by decide) (by decide) (by decide) (by decide) (by decide)
  exact ⟨hmain.1 [5], hmain.2⟩

/-- Claim C8: for a control-frame header with the config-change flag set and
the config-error flag clear, the decoder reads exactly one discard word from
the FIFO data register and returns successfully with config_change = true and
all data fields None. -/
theorem fifo_config_change_frame (wst : BMP388FifoWithSensorTime) (h w : Nat)
    (rest : List I2cResp)
    (h_lt : h < 256)
    (hctrl : h &&& BMP280_FIFO_CONTROL_FRAME_BIT > 0)
    (herr : h &&& BMP280_FIFO_CONTROL_FRAME_CONFIG_ERROR_BIT = 0)
    (hchg : h &&& BMP280_FIFO_CONTROL_FRAME_CONFIG_CHANGE_BIT > 0) :
    read_next_fifo_data_frame wst (initBus (I2cResp.byte h :: I2cResp.word w :: rest)) =
      (Except.ok { pressure_raw := none, temperature_raw := none,
                   sensor_time := none, config_change := true },
       { resps := rest, trace := [I2cOp.readByte BMP388_REG_FIFO_DATA,
                                  I2cOp.readWord BMP388_REG_FIFO_DATA] }) := by
  simp only [read_next_fifo_data_frame, get_fifo_data, read_byte, read_word, issue, initBus,
    Nat.mod_eq_of_lt h_lt, hctrl, herr, if_true, if_pos]
  simp [herr]
  omega

/-- Claim C8 (witness): control header 0x48 (control bit and config-change
bit set, error bit clear). -/
theorem fifo_config_change_frame_witness :
    read_next_fifo_data_frame BMP388FifoWithSensorTime.Disabled
        (initBus [I2cResp.byte 0x48, I2cResp.word 0]) =
      (Except.ok { pressure_raw := none, temperature_raw := none,
                   sensor_time := none, config_change := true },
       { resps := [], trace := [I2cOp.readByte BMP388_REG_FIFO_DATA,
                                I2cOp.readWord BMP388_REG_FIFO_DATA] }) :=
  fifo_config_change_frame BMP388FifoWithSensorTime.Disabled 0x48 0 []
    (by decide) (by decide) (by decide) (by decide)

/-- Claim C9: the caller-side FIFO drain loop terminates — when the scripted
FIFO length readings reach their first zero at position k, the loop performs
exactly k frame reads and stops. -/
theorem fifo_drain_loop_count (pre rest : List Nat) (hpre : ∀ x ∈ pre, x ≠ 0) :
    fifo_drain_frame_reads (pre ++ 0 :: rest) = some (pre.length + 1) := by
  induction pre with
  | nil => simp [fifo_drain_frame_reads]
  | cons a as ih =>
    have ha : a ≠ 0 := hpre a (List.mem_cons_self a as)
    have ihh := ih (fun x hx => hpre x (List.mem_cons_of_mem a hx))
    simp [fifo_drain_frame_reads, ha, ihh]

/-- Claim C9 (witness): FIFO length readings 5, 3, 0, 9 — the loop performs
exactly 3 frame reads (the first zero is the third reading). -/
theorem fifo_drain_loop_count_witness :
    fifo_drain_frame_reads [5, 3, 0, 9] = some 3 :=
  fifo_drain_loop_count [5, 3] [9] (by decide)

/-- Claim C10: decoding coefficient P1 reinterprets calibration bytes 5 and 6
as an i16 and subtracts 16384 in 16-bit arithmetic; on the raw field value
0x8000 (bytes 0x00, 0x80) the i16 value is -32768 and the subtraction leaves
the i16 range, overflowing (a panic in debug builds), so the subtraction is
not safe for every raw field value. -/
theorem par_p1_sub_overflow :
    par_p1_sub_i16_checked 0 128 = none ∧
    toI16 (concat_bytes 128 0) - 16384 < -32768 := by
  constructor
  · rfl
  · decide
